import Mathlib

/-!
Shallow embedding of `hooks/tk-multi-publish2/basic/publish_unreal_asset.py`
(the single source file of the tk-unreal repository), together with proofs
about the plugin's lifecycle callbacks.

Modelling conventions:
* Python dictionaries (item properties, settings dictionaries) are
  association lists `List (String × α)` with first-match lookup and
  in-place update, matching `dict` semantics for unique keys.
* Python exceptions (KeyError on `d[k]`, AttributeError on `None.value`,
  shutil/OS errors) are `Except PubError`.
* `os.path` functions are translated from CPython `posixpath`
  (`normpath`, `split`, `join`); the pipeline is specified against POSIX
  path semantics.
* External collaborators (the template engine, `get_template_by_name`,
  the base publish plugin, the filesystem) are parameters or explicit
  state, as the spec scopes them outside this component.
-/

namespace TkUnreal

/-- A path template, an external object resolving named fields to a path.
The fields used by `validate` are exactly name, YYYY, MM, DD. -/
structure Fields where
  name : String
  YYYY : Nat
  MM : Nat
  DD : Nat
deriving Repr, DecidableEq

/-- External template-engine object: `apply_fields` resolves the fields
into a filesystem path string. -/
structure Template where
  apply_fields : Fields → String

/-- Values stored in `item.properties`: strings, or the (possibly `None`)
result of a template lookup stored by `accept`. -/
inductive PropValue where
  | str : String → PropValue
  | tmpl : Option Template → PropValue

/-- Python `str()` of a property value; total, as in Python. The repr of
a template object is irrelevant to every code path proved about. -/
def pyStr : PropValue → String
  | .str s => s
  | .tmpl _ => "<Template>"

/-- First-match association-list lookup: Python `dict.get`. -/
def lookupAssoc {α : Type} : List (String × α) → String → Option α
  | [], _ => none
  | (k', v) :: rest, k => if k' = k then some v else lookupAssoc rest k

/-- Association-list update: Python `d[k] = v` (replace in place, else
append), preserving insertion order like `dict`. -/
def updateAssoc {α : Type} : List (String × α) → String → α → List (String × α)
  | [], k, v => [(k, v)]
  | (k', v') :: rest, k, v =>
    if k' = k then (k, v) :: rest else (k', v') :: updateAssoc rest k v

/-- The framework `Item`: an opaque record of key/value properties. -/
structure Item where
  properties : List (String × PropValue)

/-- `item.properties.get(k)`. -/
def getProp (it : Item) (k : String) : Option PropValue :=
  lookupAssoc it.properties k

/-- `item.properties[k] = v`. -/
def setProp (it : Item) (k : String) (v : PropValue) : Item :=
  { it with properties := updateAssoc it.properties k v }

/-- Python truthiness of a looked-up property: `None`, the empty string
and a `None` template lookup are falsy. -/
def truthy : Option PropValue → Bool
  | none => false
  | some (.str s) => s ≠ ""
  | some (.tmpl t) => t.isSome

/-- A `Setting` instance as passed in the settings dictionary; its
`value` is the configured template name (default `None`). -/
structure Setting where
  value : Option String

/-- Python exceptions that the embedded code can raise. -/
inductive PubError where
  | keyError : String → PubError
  | attributeError : PubError
  | typeError : PubError
  | fileExists : String → PubError
  | fileNotFound : String → PubError
deriving Repr, DecidableEq

/-- `item.properties[k]` (raises KeyError when absent). -/
def getReq (it : Item) (k : String) : Except PubError PropValue :=
  match getProp it k with
  | some v => .ok v
  | none => .error (.keyError k)

/-- `item.properties[k]` where a string is required by the consumer
(`os.path.join`, `ensure_folder_exists`): a non-string raises. -/
def getStrReq (it : Item) (k : String) : Except PubError String :=
  match getProp it k with
  | some (.str s) => .ok s
  | some (.tmpl _) => .error .typeError
  | none => .error (.keyError k)

/-! ### `os.path` (CPython `posixpath`)

String manipulation is done on character lists with structural
recursion, so that every path computation evaluates by `decide`/`rfl`. -/

/-- Python `s.split("/")` on character lists: split at every slash,
keeping empty pieces. -/
def splitSlashAux : List Char → List Char → List (List Char)
  | [], acc => [acc.reverse]
  | c :: rest, acc =>
    if c = '/' then acc.reverse :: splitSlashAux rest []
    else splitSlashAux rest (c :: acc)

/-- Python `s.split("/")`. -/
def splitSlash (s : String) : List String :=
  (splitSlashAux s.toList []).map String.mk

/-- Python `"/".join(parts)`. -/
def joinSlash : List String → String
  | [] => ""
  | [x] => x
  | x :: xs => x ++ "/" ++ joinSlash xs

/-- Length of the run of leading slashes of a path. -/
def countLeadSlashes : List Char → Nat
  | '/' :: rest => countLeadSlashes rest + 1
  | _ => 0

/-- `posixpath.normpath`: collapse `//`, drop `.`, resolve `..`
lexically, preserving the POSIX two-initial-slash special case
(`startswith('//') and not startswith('///')`). -/
def normpath (p : String) : String :=
  if p = "" then "."
  else
    let n := countLeadSlashes p.toList
    let initialSlashes : Nat := if n = 2 then 2 else if 1 ≤ n then 1 else 0
    let comps := splitSlash p
    let newComps := comps.foldl
      (fun acc comp =>
        if comp = "" ∨ comp = "." then acc
        else if comp ≠ ".." ∨ (initialSlashes = 0 ∧ acc = []) ∨
            acc.getLast? = some ".." then acc ++ [comp]
        else if acc ≠ [] then acc.dropLast
        else acc)
      []
    let joined := joinSlash newComps
    let path := String.mk (List.replicate initialSlashes '/') ++ joined
    if path = "" then "." else path

/-- Drop trailing slashes: Python `s.rstrip('/')`. -/
def rstripSlash (s : String) : String :=
  String.mk ((s.toList.reverse.dropWhile (· = '/')).reverse)

/-- `posixpath.split p`: head is everything up to and including the
last slash (then right-stripped of slashes unless all slashes), tail is
what follows. Computed through `splitSlash`, which agrees with the
index arithmetic of the CPython source. -/
def ospathSplit (p : String) : String × String :=
  let cs := splitSlash p
  let head := if cs.length ≤ 1 then "" else joinSlash cs.dropLast ++ "/"
  let tail := cs.getLastD ""
  let head := if head ≠ "" ∧ ¬ head.toList.all (· = '/') then rstripSlash head else head
  (head, tail)

/-- `posixpath.join a b` (two-argument case). -/
def pathJoin (a b : String) : String :=
  if b.toList.head? = some '/' then b
  else if a = "" ∨ a.toList.getLast? = some '/' then a ++ b
  else a ++ "/" ++ b

/-! ### Filesystem state

The only shared resource is the filesystem; `dirs` is the set of existing
directory paths and `copied` a log of completed recursive copies. -/

structure FS where
  dirs : List String
  copied : List (String × String)

/-- `sgtk` framework helper `ensure_folder_exists`: creates the
directory when absent (modelled from the spec, which delegates it to
the framework). -/
def ensure_folder_exists (p : String) (fs : FS) : FS :=
  if p ∈ fs.dirs then fs else { fs with dirs := p :: fs.dirs }

/-- `shutil.copytree src dst`: raises when `src` does not exist or when
`dst` already exists (no overwrite); otherwise creates `dst` and records
the recursive copy. -/
def copytree (src dst : String) (fs : FS) : Except PubError FS :=
  if src ∉ fs.dirs then .error (.fileNotFound src)
  else if dst ∈ fs.dirs then .error (.fileExists dst)
  else .ok { fs with dirs := dst :: fs.dirs, copied := fs.copied ++ [(src, dst)] }

/-! ### The plugin: `UnrealAssetPublishPlugin` -/

namespace UnrealAssetPublishPlugin

/-- Schema of one entry of the settings dictionary returned by the
`settings` property. -/
structure SettingSpec where
  type : String
  default : Option String
  description : String

/-- The `settings` property: the base class's settings (`or {}` when
`None`) updated with the "Publish Template" entry. The base class's
dictionary is a parameter, as it lives outside this file. -/
def settings (baseSettings : Option (List (String × SettingSpec))) :
    List (String × SettingSpec) :=
  let base := baseSettings.getD []
  updateAssoc base "Publish Template"
    { type := "template"
      default := none
      description := "Template path for published work files. Shouldcorrespond to a template defined in templates.yml." }

/-- The `item_filters` property. -/
def item_filters : List String := ["unreal.asset.SkeletalMesh"]

/-- Result dictionary of `accept`. -/
structure AcceptResult where
  accepted : Bool
  checked : Bool
deriving Repr, DecidableEq

/-- `accept(settings, item)`. `getTemplateByName` is the publisher's
`get_template_by_name`, an external collaborator. A missing
"Publish Template" setting makes `publish_template_setting.value` an
attribute access on `None`, hence AttributeError. The resolved (possibly
`None`) template is stored on the item before returning. -/
def accept (getTemplateByName : Option String → Option Template)
    (stngs : List (String × Setting)) (item : Item) :
    Except PubError (AcceptResult × Item) := do
  let accepted := true
  let publish_template_setting := lookupAssoc stngs "Publish Template"
  let v ← match publish_template_setting with
    | none => Except.error PubError.attributeError
    | some s => Except.ok s.value
  let publish_template := getTemplateByName v
  let accepted := if publish_template.isSome then accepted else false
  let item := setProp item "publish_template" (.tmpl publish_template)
  pure ({ accepted := accepted, checked := true }, item)

/-- Today's date, a parameter of `validate` (`datetime.date.today()`). -/
structure Date where
  year : Nat
  month : Nat
  day : Nat
deriving Repr, DecidableEq

/-- `validate(settings, item)`: requires truthy `asset_path`,
`asset_name` and `publish_template`; on success resolves the template
with name and today's fields, normalizes, and stores `publish_type`,
`path` and `destination_path` on the item. Calling `apply_fields` on a
non-template property value raises, as in Python. -/
def validate (today : Date) (_stngs : List (String × Setting)) (item : Item) :
    Except PubError (Bool × Item) := do
  let asset_path := getProp item "asset_path"
  let asset_name := getProp item "asset_name"
  if ¬ truthy asset_path ∨ ¬ truthy asset_name then
    pure (false, item)
  else do
    let publish_template := getProp item "publish_template"
    if ¬ truthy publish_template then
      pure (false, item)
    else do
      let nameStr := match asset_name with
        | some v => pyStr v
        | none => ""
      let fields : Fields :=
        { name := nameStr, YYYY := today.year, MM := today.month, DD := today.day }
      let item := setProp item "publish_type" (.str "Unreal Folder")
      let t ← match publish_template with
        | some (.tmpl (some t)) => Except.ok t
        | _ => Except.error PubError.attributeError
      let publish_path := t.apply_fields fields
      let publish_path := normpath publish_path
      let item := setProp item "path" (.str publish_path)
      let destination_path := (ospathSplit publish_path).1
      let item := setProp item "destination_path" (.str destination_path)
      pure (true, item)

/-- `publish(settings, item)`: ensure the destination folder exists,
derive the source directory from the asset path (`split("/")[2:-1]`
joined under `<work_dir>/Content`), recursively copy it to
`<destination_path>/<asset_name>`, then delegate to the base class's
publish (`basePub`, an external collaborator acting on the state). -/
def publish (basePub : FS → Except PubError FS) (work_dir : String)
    (_stngs : List (String × Setting)) (item : Item) (fs : FS) :
    Except PubError FS := do
  let destination_path ← getStrReq item "destination_path"
  let fs := ensure_folder_exists destination_path fs
  let apVal ← getReq item "asset_path"
  let asset_name ← getStrReq item "asset_name"
  let asset_path := pyStr apVal
  let path := ((splitSlash asset_path).drop 2).dropLast
  let path := joinSlash path
  let path := pathJoin (pathJoin work_dir "Content") path
  let destination_path := pathJoin destination_path asset_name
  let fs ← copytree path destination_path fs
  basePub fs

/-- `finalize(settings, item)`: delegation to the base class's
finalize, an external collaborator acting on an arbitrary state. -/
def finalize {σ : Type} (baseFinalize : List (String × Setting) → Item → σ → σ)
    (stngs : List (String × Setting)) (item : Item) (s : σ) : σ :=
  baseFinalize stngs item s

end UnrealAssetPublishPlugin

/-! ### Concrete fixtures used by witnesses -/

/-- A template producing `/pub/YYYY/MM/DD/name`, the shape used by the
spec's worked example. -/
def heroTemplate : Template :=
  ⟨fun f => "/pub/" ++ toString f.YYYY ++ "/" ++ toString f.MM ++ "/" ++
    toString f.DD ++ "/" ++ f.name⟩

/-- An item ready for `validate`: asset path, asset name and a resolved
publish template. -/
def heroItem : Item :=
  ⟨[("asset_path", .str "/Game/Characters/Hero/Hero_Skeleton"),
    ("asset_name", .str "Hero"),
    ("publish_template", .tmpl (some heroTemplate))]⟩

/-- An item ready for `publish`: destination path as produced by
`validate`, plus the asset path and name. -/
def heroPubItem : Item :=
  ⟨[("destination_path", .str "/pub/2024/3/5"),
    ("asset_path", .str "/Game/Characters/Hero/Hero_Skeleton"),
    ("asset_name", .str "Hero")]⟩

/-- A filesystem in which the exported source tree exists and the
destination does not. -/
def pubFS : FS := ⟨["/work/Content/Characters/Hero"], []⟩

/-- A filesystem in which the copy destination already exists. -/
def clashFS : FS := ⟨["/work/Content/Characters/Hero", "/pub/2024/3/5/Hero"], []⟩

/-! ### Dictionary lemmas -/

theorem lookup_updateAssoc_self {α : Type} (d : List (String × α)) (k : String) (v : α) :
    lookupAssoc (updateAssoc d k v) k = some v := by
  induction d with
  | nil => simp [updateAssoc, lookupAssoc]
  | cons p rest ih =>
    obtain ⟨k', v'⟩ := p
    by_cases h : k' = k <;> simp [updateAssoc, lookupAssoc, h, ih]

theorem lookup_updateAssoc_other {α : Type} (d : List (String × α)) (k k' : String)
    (v : α) (h : k ≠ k') : lookupAssoc (updateAssoc d k v) k' = lookupAssoc d k' := by
  induction d with
  | nil => simp [updateAssoc, lookupAssoc, h]
  | cons p rest ih =>
    obtain ⟨k₀, v₀⟩ := p
    by_cases h0 : k₀ = k <;> simp [updateAssoc, lookupAssoc, h0, h, ih]

theorem getProp_setProp_self (it : Item) (k : String) (v : PropValue) :
    getProp (setProp it k v) k = some v :=
  lookup_updateAssoc_self it.properties k v

theorem getProp_setProp_other (it : Item) (k k' : String) (v : PropValue)
    (h : k ≠ k') : getProp (setProp it k v) k' = getProp it k' :=
  lookup_updateAssoc_other it.properties k k' v h

/-- `ensure_folder_exists` never touches the copy log. -/
theorem ensure_copied (p : String) (fs : FS) :
    (ensure_folder_exists p fs).copied = fs.copied := by
  unfold ensure_folder_exists
  split <;> rfl

/-- `ensure_folder_exists` only adds directories. -/
theorem mem_ensure (p q : String) (fs : FS) (h : q ∈ fs.dirs) :
    q ∈ (ensure_folder_exists p fs).dirs := by
  unfold ensure_folder_exists
  split
  · exact h
  · exact List.mem_cons_of_mem _ h

namespace UnrealAssetPublishPlugin

/-- Claim C6: the `item_filters` property is exactly the one-element
list containing the `unreal.asset.SkeletalMesh` tag, so that tag alone
reaches `accept`. -/
theorem item_filters_spec : item_filters = ["unreal.asset.SkeletalMesh"] := rfl

/-- Claim C7: the `settings` property is the base class's settings
dictionary updated with a "Publish Template" entry of type `template`
and default `None`; every other key's entry is preserved unchanged. -/
theorem settings_merges_publish_template (base : Option (List (String × SettingSpec))) :
    (∃ sp, lookupAssoc (settings base) "Publish Template" = some sp ∧
      sp.type = "template" ∧ sp.default = none) ∧
    ∀ k, k ≠ "Publish Template" →
      lookupAssoc (settings base) k = lookupAssoc (base.getD []) k := by
  constructor
  · exact ⟨_, lookup_updateAssoc_self _ _ _, rfl, rfl⟩
  · intro k hk
    exact lookup_updateAssoc_other _ _ _ _ (Ne.symm hk)

/-- Witness for C7 at a concrete base dictionary and foreign key. -/
theorem settings_merges_publish_template_witness :
    lookupAssoc (settings (some [("File Types", ⟨"list", none, "d"⟩)])) "File Types" =
      lookupAssoc [("File Types", (⟨"list", none, "d"⟩ : SettingSpec))] "File Types" :=
  (settings_merges_publish_template (some [("File Types", ⟨"list", none, "d"⟩)])).2
    "File Types" (by decide)

/-- Claim C8: `finalize` is pure delegation to the base class's
finalize: for every base behavior, settings, item and state, it returns
exactly what the base class returns. -/
theorem finalize_pure_delegation {σ : Type}
    (baseFinalize : List (String × Setting) → Item → σ → σ)
    (stngs : List (String × Setting)) (item : Item) (s : σ) :
    finalize baseFinalize stngs item s = baseFinalize stngs item s := rfl

/-- Claim C4: when the configured template name does not resolve to a
template object, `accept` returns normally (no exception) with
`accepted = false`. -/
theorem accept_fails_closed (gtbn : Option String → Option Template)
    (stngs : List (String × Setting)) (item : Item) (st : Setting)
    (hs : lookupAssoc stngs "Publish Template" = some st)
    (hn : gtbn st.value = none) :
    accept gtbn stngs item =
      .ok ({ accepted := false, checked := true },
        setProp item "publish_template" (.tmpl none)) := by
  simp [accept, hs, hn]

/-- Witness for C4: a concrete settings dictionary whose template name
resolves to nothing. -/
theorem accept_fails_closed_witness :
    accept (fun _ => none) [("Publish Template", ⟨some "missing"⟩)] ⟨[]⟩ =
      .ok ({ accepted := false, checked := true },
        setProp ⟨[]⟩ "publish_template" (.tmpl none)) :=
  accept_fails_closed (fun _ => none) [("Publish Template", ⟨some "missing"⟩)]
    ⟨[]⟩ ⟨some "missing"⟩ rfl rfl

/-- Claim C9: every normally-returning call to `accept` writes the
`publish_template` item property with the (possibly `None`) lookup
result — in particular a rejected item still gets the property, holding
`None`. -/
theorem accept_always_writes_template (gtbn : Option String → Option Template)
    (stngs : List (String × Setting)) (item : Item) (st : Setting)
    (hs : lookupAssoc stngs "Publish Template" = some st) :
    ∃ r item', accept gtbn stngs item = .ok (r, item') ∧
      getProp item' "publish_template" = some (.tmpl (gtbn st.value)) ∧
      (gtbn st.value = none → r.accepted = false) := by
  refine ⟨{ accepted := (gtbn st.value).isSome, checked := true },
    setProp item "publish_template" (.tmpl (gtbn st.value)), ?_, ?_, ?_⟩
  · simp [accept, hs]
  · exact getProp_setProp_self _ _ _
  · intro h
    simp [h]

/-- Witness for C9: the rejected item of `accept_fails_closed_witness`
carries the written `None` template property. -/
theorem accept_always_writes_template_witness :
    ∃ r item',
      accept (fun _ => none) [("Publish Template", ⟨none⟩)] ⟨[]⟩ = .ok (r, item') ∧
      getProp item' "publish_template" =
        some (.tmpl ((fun _ => none : Option String → Option Template) none)) ∧
      ((fun _ => none : Option String → Option Template) none = none →
        r.accepted = false) :=
  accept_always_writes_template (fun _ => none) [("Publish Template", ⟨none⟩)]
    ⟨[]⟩ ⟨none⟩ rfl

/-- Claim C5: when `asset_path`, `asset_name` or the stored
`publish_template` is missing or falsy, `validate` returns `False`
normally (no exception), leaving the item as it was. -/
theorem validate_requires_properties (d : Date) (stngs : List (String × Setting))
    (item : Item)
    (h : truthy (getProp item "asset_path") = false ∨
      truthy (getProp item "asset_name") = false ∨
      truthy (getProp item "publish_template") = false) :
    validate d stngs item = .ok (false, item) := by
  unfold validate
  rcases h with h | h | h <;>
    by_cases h1 : truthy (getProp item "asset_path") <;>
    by_cases h2 : truthy (getProp item "asset_name") <;>
    simp_all [Pure.pure, Except.pure]

/-- Witness for C5: an item with no properties at all. -/
theorem validate_requires_properties_witness :
    validate ⟨2024, 3, 5⟩ [] ⟨[]⟩ = .ok (false, ⟨[]⟩) :=
  validate_requires_properties ⟨2024, 3, 5⟩ [] ⟨[]⟩ (Or.inl rfl)

/-- Claim C10: whenever `validate` returns `False`, the item is
returned exactly as it came in: no property was added or modified. -/
theorem validate_false_leaves_item_unchanged (d : Date)
    (stngs : List (String × Setting)) (item item' : Item)
    (h : validate d stngs item = .ok (false, item')) : item' = item := by
  unfold validate at h
  by_cases h1 : ¬ truthy (getProp item "asset_path") ∨ ¬ truthy (getProp item "asset_name")
  · rw [if_pos h1] at h
    simp [Pure.pure, Except.pure] at h
    exact h.symm
  · rw [if_neg h1] at h
    by_cases h2 : ¬ truthy (getProp item "publish_template")
    · rw [if_pos h2] at h
      simp [Pure.pure, Except.pure] at h
      exact h.symm
    · rw [if_neg h2] at h
      rcases hpt : getProp item "publish_template" with _ | v
      · rw [hpt] at h
        simp [truthy, hpt] at h2
      · rcases v with s | t
        · rw [hpt] at h
          simp at h
        · rcases t with _ | t
          · rw [hpt] at h
            simp [truthy, hpt] at h2
          · rw [hpt] at h
            simp at h

/-- Witness for C10: the empty item comes back unchanged from a
failing `validate`. -/
theorem validate_false_leaves_item_unchanged_witness :
    (⟨[("asset_name", .str "Hero")]⟩ : Item) = ⟨[("asset_name", .str "Hero")]⟩ :=
  validate_false_leaves_item_unchanged ⟨2024, 3, 5⟩ []
    ⟨[("asset_name", .str "Hero")]⟩ ⟨[("asset_name", .str "Hero")]⟩ rfl

/-- Claim C2: with non-empty `asset_path` and `asset_name` and a
resolved template, `validate` returns `True`, sets `path` to the
normalized template resolution over name and today's date fields, and
sets `destination_path` to its parent directory. -/
theorem validate_success (d : Date) (stngs : List (String × Setting)) (item : Item)
    (ap an : String) (t : Template)
    (hap : getProp item "asset_path" = some (.str ap)) (hap2 : ap ≠ "")
    (han : getProp item "asset_name" = some (.str an)) (han2 : an ≠ "")
    (hpt : getProp item "publish_template" = some (.tmpl (some t))) :
    ∃ item', validate d stngs item = .ok (true, item') ∧
      getProp item' "path" = some (.str (normpath (t.apply_fields
        { name := an, YYYY := d.year, MM := d.month, DD := d.day }))) ∧
      getProp item' "destination_path" = some (.str (ospathSplit (normpath
        (t.apply_fields
          { name := an, YYYY := d.year, MM := d.month, DD := d.day }))).1) := by
  refine ⟨setProp (setProp (setProp item "publish_type" (.str "Unreal Folder"))
    "path" (.str (normpath (t.apply_fields
      { name := an, YYYY := d.year, MM := d.month, DD := d.day }))))
    "destination_path" (.str (ospathSplit (normpath (t.apply_fields
      { name := an, YYYY := d.year, MM := d.month, DD := d.day }))).1),
    ?_, ?_, ?_⟩
  · simp [validate, hap, han, hpt, truthy, pyStr, hap2, han2]
  · rw [getProp_setProp_other _ _ _ _ (by decide), getProp_setProp_self]
  · rw [getProp_setProp_self]

/-- Witness for C2: the spec's worked example, with the concrete
normalized path `/pub/2024/3/5/Hero` and parent `/pub/2024/3/5`. -/
theorem validate_success_witness :
    (∃ item', validate ⟨2024, 3, 5⟩ [] heroItem = .ok (true, item') ∧
      getProp item' "path" = some (.str (normpath (heroTemplate.apply_fields
        ⟨"Hero", 2024, 3, 5⟩))) ∧
      getProp item' "destination_path" = some (.str (ospathSplit (normpath
        (heroTemplate.apply_fields ⟨"Hero", 2024, 3, 5⟩))).1)) ∧
    normpath (heroTemplate.apply_fields ⟨"Hero", 2024, 3, 5⟩) = "/pub/2024/3/5/Hero" ∧
    (ospathSplit "/pub/2024/3/5/Hero").1 = "/pub/2024/3/5" :=
  ⟨validate_success ⟨2024, 3, 5⟩ [] heroItem "/Game/Characters/Hero/Hero_Skeleton"
      "Hero" heroTemplate rfl (by decide) rfl (by decide) rfl,
    by decide, by decide⟩

/-- Claim C1: for an asset path of the form `/Game/seg1/.../segN`
(formalized: its slash-split is `"" :: "Game" :: segs`), `publish`
derives the source directory by keeping the split components after the
first two and before the last, joined under `<work_dir>/Content`, and
recursively copies it to `<destination_path>/<asset_name>`, then hands
the resulting filesystem to the base class's publish. -/
theorem publish_copies_content_tree (basePub : FS → Except PubError FS)
    (work_dir destPath assetName asset_path : String) (segs : List String)
    (stngs : List (String × Setting)) (item : Item) (fs : FS)
    (hsplit : splitSlash asset_path = "" :: "Game" :: segs)
    (hdp : getProp item "destination_path" = some (.str destPath))
    (hap : getProp item "asset_path" = some (.str asset_path))
    (han : getProp item "asset_name" = some (.str assetName))
    (hsrc : pathJoin (pathJoin work_dir "Content") (joinSlash segs.dropLast)
      ∈ (ensure_folder_exists destPath fs).dirs)
    (hdst : pathJoin destPath assetName ∉ (ensure_folder_exists destPath fs).dirs) :
    publish basePub work_dir stngs item fs =
      basePub
        { dirs := pathJoin destPath assetName ::
            (ensure_folder_exists destPath fs).dirs,
          copied := fs.copied ++
            [(pathJoin (pathJoin work_dir "Content") (joinSlash segs.dropLast),
              pathJoin destPath assetName)] } := by
  simp [publish, getStrReq, getReq, hdp, hap, han, hsplit, pyStr, copytree,
    hsrc, hdst, ensure_copied, Bind.bind, Except.bind]

/-- Witness for C1: the spec's worked example — source directory
`/work/Content/Characters/Hero`, destination `/pub/2024/3/5/Hero`. -/
theorem publish_copies_content_tree_witness :
    (publish Except.ok "/work" [] heroPubItem pubFS =
      Except.ok
        { dirs := pathJoin "/pub/2024/3/5" "Hero" ::
            (ensure_folder_exists "/pub/2024/3/5" pubFS).dirs,
          copied := pubFS.copied ++
            [(pathJoin (pathJoin "/work" "Content")
                (joinSlash (["Characters", "Hero", "Hero_Skeleton"].dropLast)),
              pathJoin "/pub/2024/3/5" "Hero")] }) ∧
    pathJoin (pathJoin "/work" "Content")
      (joinSlash (["Characters", "Hero", "Hero_Skeleton"].dropLast)) =
      "/work/Content/Characters/Hero" ∧
    pathJoin "/pub/2024/3/5" "Hero" = "/pub/2024/3/5/Hero" :=
  ⟨publish_copies_content_tree Except.ok "/work" "/pub/2024/3/5" "Hero"
      "/Game/Characters/Hero/Hero_Skeleton" ["Characters", "Hero", "Hero_Skeleton"]
      [] heroPubItem pubFS (by decide) rfl rfl rfl (by decide) (by decide),
    by decide, by decide⟩

/-- Claim C3: when the computed copy destination
`<destination_path>/<asset_name>` already exists, `publish` raises: the
recursive copy refuses to overwrite and the exception propagates out of
`publish` (the base class's publish is never consulted). -/
theorem publish_raises_when_destination_exists (basePub : FS → Except PubError FS)
    (work_dir : String) (stngs : List (String × Setting)) (item : Item) (fs : FS)
    (destPath assetName : String) (apv : PropValue)
    (hdp : getProp item "destination_path" = some (.str destPath))
    (hap : getProp item "asset_path" = some apv)
    (han : getProp item "asset_name" = some (.str assetName))
    (hex : pathJoin destPath assetName ∈ fs.dirs) :
    ∃ e, publish basePub work_dir stngs item fs = .error e := by
  have hex' := mem_ensure destPath _ fs hex
  by_cases hsrc : pathJoin (pathJoin work_dir "Content")
      (joinSlash (((splitSlash (pyStr apv)).drop 2).dropLast))
      ∈ (ensure_folder_exists destPath fs).dirs
  · exact ⟨.fileExists (pathJoin destPath assetName),
      by simp [publish, getStrReq, getReq, hdp, hap, han, copytree, hsrc,
        hex', Bind.bind, Except.bind]⟩
  · exact ⟨.fileNotFound (pathJoin (pathJoin work_dir "Content")
        (joinSlash (((splitSlash (pyStr apv)).drop 2).dropLast))),
      by simp [publish, getStrReq, getReq, hdp, hap, han, copytree, hsrc,
        Bind.bind, Except.bind]⟩

/-- Witness for C3: the destination `/pub/2024/3/5/Hero` already
exists in `clashFS`, so `publish` fails. -/
theorem publish_raises_when_destination_exists_witness :
    ∃ e, publish Except.ok "/work" [] heroPubItem clashFS = .error e :=
  publish_raises_when_destination_exists Except.ok "/work" [] heroPubItem clashFS
    "/pub/2024/3/5" "Hero" (.str "/Game/Characters/Hero/Hero_Skeleton")
    rfl rfl rfl (by decide)

end UnrealAssetPublishPlugin

end TkUnreal
